import Mathlib

/- Formal verification of the wine-quality hyperparameter-search notebook.
   The notebook's own Python functions (load, prepare, objective) are embedded
   directly; the Optuna study loop, whose implementation is an external
   library, is modelled from the specification's contract for the Trial
   Search Loop. Scores and tabular values are rationals. -/

/-- A pandas DataFrame, embedded as an ordered list of named numeric columns. -/
structure DataFrame where
  cols : List (String × List Rat)
deriving DecidableEq

/-- Whether the frame has a column with the given name. -/
def hasCol (df : DataFrame) (n : String) : Bool :=
  df.cols.any (fun c => c.1 == n)

/-- Embeds pandas DataFrame.drop(labels, axis=1): removes every column whose
name is in labels, raising KeyError when some label is absent. -/
def DataFrame.drop (df : DataFrame) (labels : List String) : Except String DataFrame :=
  if labels.all (fun n => hasCol df n) then
    Except.ok ⟨df.cols.filter (fun c => !(labels.contains c.1))⟩
  else
    Except.error "KeyError"

/-- Embeds pandas column selection data[[labels]]: keeps the requested columns
in the requested order, raising KeyError when some label is absent. -/
def DataFrame.select (df : DataFrame) (labels : List String) : Except String DataFrame :=
  if labels.all (fun n => hasCol df n) then
    Except.ok ⟨(labels.map (fun n => df.cols.filter (fun c => c.1 == n))).flatten⟩
  else
    Except.error "KeyError"

/-- Embeds prepare(data) from the notebook:
x = data.drop(["quality"], axis=1); y = data[["quality"]]; return (x, y). -/
def prepare (df : DataFrame) : Except String (DataFrame × DataFrame) := do
  let x ← df.drop ["quality"]
  let y ← df.select ["quality"]
  return (x, y)

/-- Outcome of running a Python function body: a normal return or a raised
exception, identified by its class name. -/
inductive PyResult (α : Type) where
  | ret : α → PyResult α
  | exn : String → PyResult α
deriving DecidableEq

/-- Embeds load() from the notebook. The input models the outcome of
pd.read_csv(CSV_URL, sep=";"). The Python local variable data is bound only
when the read succeeds; the except clause prints a message; the final
return data raises UnboundLocalError when data was never bound. The first
component collects the printed log lines. -/
def load (readCsv : Except String DataFrame) : List String × PyResult DataFrame :=
  let dataVar : Option DataFrame := none
  let step : Option DataFrame × List String :=
    match readCsv with
    | Except.ok d => (some d, [])
    | Except.error e =>
        (dataVar,
         ["Unable to download training & test CSV, check your internet connection. Error: %s " ++ e])
  match step.1 with
  | some d => (step.2, PyResult.ret d)
  | none => (step.2, PyResult.exn "UnboundLocalError")

/-- The claim that after a failed download, load logs and still returns a
value, letting execution continue downstream with an undefined dataset. -/
def loadContinuesClaim : Prop :=
  ∀ e : String, (load (Except.error e)).1 ≠ [] ∧
    ∃ d, (load (Except.error e)).2 = PyResult.ret d

/-- C5 counterexample: at the concrete failing fetch, load does not return a
value at all: the final return statement raises UnboundLocalError, so the
claim that execution continues with an undefined dataset is false. -/
theorem load_error_cex : ¬ loadContinuesClaim := by
  intro h
  obtain ⟨-, d, hd⟩ := h "connection refused"
  simp [load] at hd

/-- C5 (amended): when the CSV download inside load raises, load prints the
formatted error message and does not re-raise the original exception, but the
subsequent return of the never-bound local raises UnboundLocalError, so load
fails instead of handing an undefined dataset to downstream processing. -/
theorem load_error_amended (e : String) :
    (load (Except.error e)).1 =
      ["Unable to download training & test CSV, check your internet connection. Error: %s " ++ e] ∧
    (load (Except.error e)).2 = PyResult.exn "UnboundLocalError" := by
  exact ⟨rfl, rfl⟩

/-- C10: for a frame with a quality column, prepare returns x holding exactly
the non-quality columns in their original order and y holding exactly the
quality column, leaving the input unchanged (prepare is pure); for a frame
without a quality column, prepare fails with KeyError. -/
theorem prepare_spec (df : DataFrame) :
    (hasCol df "quality" = true →
      prepare df =
        Except.ok (⟨df.cols.filter (fun c => !(decide (c.1 = "quality")))⟩,
                   ⟨df.cols.filter (fun c => decide (c.1 = "quality"))⟩)) ∧
    (hasCol df "quality" = false →
      prepare df = Except.error "KeyError") := by
  constructor
  · intro h
    simp [prepare, DataFrame.drop, DataFrame.select, List.all, h, List.contains,
      Bind.bind, Except.bind, pure, Except.pure]
    apply List.filter_congr
    intro c _
    cases hb : c.1 == "quality" with
    | false => simp [ne_of_beq_false hb]
    | true => simp [eq_of_beq hb]
  · intro h
    simp [prepare, DataFrame.drop, List.all, h, Bind.bind, Except.bind]

/-- C10 witness: a concrete frame with a quality column is split into features
and target, and a concrete frame without one is rejected. -/
theorem prepare_spec_witness :
    prepare ⟨[("acid", [1, 2]), ("quality", [5, 6])]⟩ =
      Except.ok (⟨[("acid", [1, 2])]⟩, ⟨[("quality", [5, 6])]⟩) ∧
    prepare ⟨[("acid", [1, 2])]⟩ = Except.error "KeyError" := by
  constructor
  · have h := (prepare_spec ⟨[("acid", [1, 2]), ("quality", [5, 6])]⟩).1 (by decide)
    rw [h]
    rfl
  · exact (prepare_spec ⟨[("acid", [1, 2])]⟩).2 (by decide)

/-- Modelled from the spec: a hyperparameter configuration, a mapping holding
the two sampled values alpha and l1_ratio (here field l1Mix). -/
structure Config where
  alpha : Rat
  l1Mix : Rat
deriving DecidableEq

/-- Modelled from the spec: a trial's completion status, either a completed
evaluation with its scalar score or a failed evaluation. -/
inductive TrialState where
  | complete : Rat → TrialState
  | failed : TrialState
deriving DecidableEq

/-- Modelled from the spec: one trial, with its ordinal index, its sampled
configuration and its outcome. -/
structure Trial where
  idx : Nat
  cfg : Config
  state : TrialState
deriving DecidableEq

instance : Inhabited Trial := ⟨⟨0, ⟨0, 0⟩, TrialState.failed⟩⟩

/-- The score of a completed trial, none for a failed one. -/
def Trial.score (t : Trial) : Option Rat :=
  match t.state with
  | TrialState.complete v => some v
  | TrialState.failed => none

/-- Modelled from the spec: a deterministic pseudo-random step driving the
sampling policy (the optuna sampler is an external library; any fixed-seed
deterministic generator realises the spec's reproducibility contract). -/
def lcg (s : Nat) : Nat := (1103515245 * s + 12345) % 2147483648

/-- Modelled from the spec: the declared sampling grid for each parameter,
values 0.05, 0.10, ..., 1.00 (range [0.05, 1.0], step 0.05). -/
def gridVal (k : Nat) : Rat := ((k % 20 + 1 : Nat) : Rat) / 20

/-- Modelled from the spec: sample one configuration, drawing alpha and
l1_ratio independently from the grid, threading the generator state. -/
def sampleConfig (s : Nat) : Config × Nat :=
  let s1 := lcg s
  let s2 := lcg s1
  (⟨gridVal s1, gridVal s2⟩, s2)

/-- Modelled from the spec: the trial search loop body. For each trial it
samples a configuration, invokes the evaluation function (none models a
raised/failed evaluation, which marks the trial failed without aborting),
records the trial, and continues with the next ordinal index. -/
def runTrials (obj : Config → Option Rat) : Nat → Nat → Nat → List Trial
  | 0, _, _ => []
  | Nat.succ n, i, s =>
      let c := (sampleConfig s).1
      let st : TrialState :=
        match obj c with
        | some v => TrialState.complete v
        | none => TrialState.failed
      ⟨i, c, st⟩ :: runTrials obj n (i + 1) (sampleConfig s).2

/-- Modelled from the spec: study.optimize with direction minimize runs n
trials from a fixed seed, producing the ordered trial history. -/
def runStudy (obj : Config → Option Rat) (n seed : Nat) : List Trial :=
  runTrials obj n 0 seed

/-- Modelled from the spec: after each trial, the best trial is replaced only
when the new trial completed with a strictly lower score; failed trials never
become best; ties keep the incumbent (earliest) best. -/
def updateBest (b : Option Trial) (t : Trial) : Option Trial :=
  match t.state with
  | TrialState.failed => b
  | TrialState.complete v =>
      match b with
      | none => some t
      | some u =>
          match u.state with
          | TrialState.complete w => if v < w then some t else some u
          | TrialState.failed => some t

/-- Left-to-right best-so-far scan over the trial history. -/
def bestGo (acc : Option Trial) : List Trial → Option Trial
  | [] => acc
  | t :: ts => bestGo (updateBest acc t) ts

/-- Modelled from the spec: the study's best trial, none when no trial
completed (absence is signalled by the option, not by a sentinel score). -/
def bestTrial (l : List Trial) : Option Trial := bestGo none l

/-- Trial indices are strictly increasing along the recorded history. -/
def IdxLt (t u : Trial) : Prop := t.idx < u.idx

theorem runTrials_length (obj : Config → Option Rat) :
    ∀ (n i s : Nat), (runTrials obj n i s).length = n := by
  intro n
  induction n with
  | zero => intro i s; rfl
  | succ m ih => intro i s; simp [runTrials, ih]

theorem runTrials_idx_lb (obj : Config → Option Rat) :
    ∀ (n i s : Nat), ∀ t ∈ runTrials obj n i s, i ≤ t.idx := by
  intro n
  induction n with
  | zero => intro i s t ht; simp [runTrials] at ht
  | succ m ih =>
      intro i s t ht
      simp only [runTrials, List.mem_cons] at ht
      cases ht with
      | inl h => rw [h]
      | inr h => exact Nat.le_of_succ_le (ih (i + 1) (sampleConfig s).2 t h)

theorem runTrials_pairwise (obj : Config → Option Rat) :
    ∀ (n i s : Nat), (runTrials obj n i s).Pairwise IdxLt := by
  intro n
  induction n with
  | zero => intro i s; simp [runTrials]
  | succ m ih =>
      intro i s
      simp only [runTrials, List.pairwise_cons]
      refine ⟨?_, ih (i + 1) (sampleConfig s).2⟩
      intro t ht
      exact Nat.lt_of_succ_le (runTrials_idx_lb obj m (i + 1) (sampleConfig s).2 t ht)

theorem runTrials_state (obj : Config → Option Rat) :
    ∀ (n i s : Nat), ∀ t ∈ runTrials obj n i s,
      t.state = (match obj t.cfg with
                 | some v => TrialState.complete v
                 | none => TrialState.failed) := by
  intro n
  induction n with
  | zero => intro i s t ht; simp [runTrials] at ht
  | succ m ih =>
      intro i s t ht
      simp only [runTrials, List.mem_cons] at ht
      cases ht with
      | inl h => rw [h]
      | inr h => exact ih (i + 1) (sampleConfig s).2 t h

theorem gridVal_bounds (k : Nat) : (1 : Rat)/20 ≤ gridVal k ∧ gridVal k ≤ 1 := by
  unfold gridVal
  have h20 : k % 20 < 20 := Nat.mod_lt _ (by norm_num)
  have hcast : ((k % 20 : Nat) : Rat) ≤ 19 := by
    exact_mod_cast Nat.lt_succ_iff.mp h20
  constructor
  · rw [div_le_div_iff₀ (by norm_num) (by norm_num)]
    push_cast
    nlinarith [Nat.cast_nonneg (α := Rat) (k % 20)]
  · rw [div_le_iff₀ (by norm_num)]
    push_cast
    linarith

theorem score_eq_some (t : Trial) (w : Rat) (h : t.score = some w) :
    t.state = TrialState.complete w := by
  cases hs : t.state with
  | complete v =>
      rw [Trial.score, hs] at h
      simp at h
      rw [h]
  | failed =>
      rw [Trial.score, hs] at h
      simp at h

theorem bestGo_some_spec (l : List Trial) :
    ∀ (a : Trial) (wa : Rat),
      a.score = some wa →
      (∀ t ∈ l, a.idx < t.idx) →
      l.Pairwise IdxLt →
      ∃ b w, bestGo (some a) l = some b ∧ (b = a ∨ b ∈ l) ∧ b.score = some w ∧
        w ≤ wa ∧ (wa ≤ w → b = a) ∧
        ∀ t ∈ l, ∀ v, t.score = some v → w ≤ v ∧ (v ≤ w → b.idx ≤ t.idx) := by
  induction l with
  | nil =>
      intro a wa ha _ _
      exact ⟨a, wa, rfl, Or.inl rfl, ha, le_refl wa, fun _ => rfl, by simp⟩
  | cons u l ih =>
      intro a wa ha hidx hpw
      have hpw1 : ∀ t ∈ l, IdxLt u t := (List.pairwise_cons.mp hpw).1
      have hpw2 : l.Pairwise IdxLt := (List.pairwise_cons.mp hpw).2
      have hastate : a.state = TrialState.complete wa := score_eq_some a wa ha
      cases hu : u.state with
      | failed =>
          have hstep : bestGo (some a) (u :: l) = bestGo (some a) l := by
            simp [bestGo, updateBest, hu]
          obtain ⟨b, w, hb, hmem, hbs, hwle, htie, hall⟩ :=
            ih a wa ha (fun t ht => hidx t (List.mem_cons_of_mem u ht)) hpw2
          refine ⟨b, w, by rw [hstep]; exact hb, ?_, hbs, hwle, htie, ?_⟩
          · cases hmem with
            | inl h => exact Or.inl h
            | inr h => exact Or.inr (List.mem_cons_of_mem u h)
          · intro t ht v hv
            cases List.mem_cons.mp ht with
            | inl h =>
                rw [h, Trial.score, hu] at hv
                simp at hv
            | inr h => exact hall t h v hv
      | complete v =>
          have huscore : u.score = some v := by rw [Trial.score, hu]
          by_cases hlt : v < wa
          · have hstep : bestGo (some a) (u :: l) = bestGo (some u) l := by
              simp [bestGo, updateBest, hu, hastate, hlt]
            obtain ⟨b, w, hb, hmem, hbs, hwle, htie, hall⟩ :=
              ih u v huscore (fun t ht => hpw1 t ht) hpw2
            refine ⟨b, w, by rw [hstep]; exact hb, ?_, hbs, ?_, ?_, ?_⟩
            · cases hmem with
              | inl h => exact Or.inr (h ▸ List.mem_cons_self u l)
              | inr h => exact Or.inr (List.mem_cons_of_mem u h)
            · exact le_of_lt (lt_of_le_of_lt hwle hlt)
            · intro hwa
              exact absurd (lt_of_le_of_lt (le_trans hwa hwle) hlt) (lt_irrefl wa)
            · intro t ht v0 hv0
              cases List.mem_cons.mp ht with
              | inl h =>
                  have hv0v : v0 = v := by
                    rw [h, Trial.score, hu] at hv0
                    simpa using hv0.symm
                  subst hv0v
                  refine ⟨hwle, fun hvw => ?_⟩
                  have hbu : b = u := htie hvw
                  rw [hbu, h]
              | inr h => exact hall t h v0 hv0
          · have hwav : wa ≤ v := le_of_not_lt hlt
            have hstep : bestGo (some a) (u :: l) = bestGo (some a) l := by
              simp [bestGo, updateBest, hu, hastate, hlt]
            obtain ⟨b, w, hb, hmem, hbs, hwle, htie, hall⟩ :=
              ih a wa ha (fun t ht => hidx t (List.mem_cons_of_mem u ht)) hpw2
            refine ⟨b, w, by rw [hstep]; exact hb, ?_, hbs, hwle, htie, ?_⟩
            · cases hmem with
              | inl h => exact Or.inl h
              | inr h => exact Or.inr (List.mem_cons_of_mem u h)
            · intro t ht v0 hv0
              cases List.mem_cons.mp ht with
              | inl h =>
                  have hv0v : v0 = v := by
                    rw [h, Trial.score, hu] at hv0
                    simpa using hv0.symm
                  subst hv0v
                  refine ⟨le_trans hwle hwav, fun hvw => ?_⟩
                  have hwaw : wa ≤ w := le_trans hwav hvw
                  have hba : b = a := htie hwaw
                  rw [hba, h]
                  exact le_of_lt (hidx u (List.mem_cons_self u l))
              | inr h => exact hall t h v0 hv0

theorem bestGo_none_spec (l : List Trial) (hpw : l.Pairwise IdxLt) :
    (bestGo none l = none ∧ ∀ t ∈ l, t.score = none) ∨
    (∃ b w, bestGo none l = some b ∧ b ∈ l ∧ b.score = some w ∧
      ∀ t ∈ l, ∀ v, t.score = some v → w ≤ v ∧ (v ≤ w → b.idx ≤ t.idx)) := by
  induction l with
  | nil => exact Or.inl ⟨rfl, by simp⟩
  | cons u l ih =>
      have hpw1 : ∀ t ∈ l, IdxLt u t := (List.pairwise_cons.mp hpw).1
      have hpw2 : l.Pairwise IdxLt := (List.pairwise_cons.mp hpw).2
      cases hu : u.state with
      | failed =>
          have hstep : bestGo none (u :: l) = bestGo none l := by
            simp [bestGo, updateBest, hu]
          cases ih hpw2 with
          | inl h =>
              refine Or.inl ⟨by rw [hstep]; exact h.1, ?_⟩
              intro t ht
              cases List.mem_cons.mp ht with
              | inl he => rw [he, Trial.score, hu]
              | inr he => exact h.2 t he
          | inr h =>
              obtain ⟨b, w, hb, hmem, hbs, hall⟩ := h
              refine Or.inr ⟨b, w, by rw [hstep]; exact hb,
                List.mem_cons_of_mem u hmem, hbs, ?_⟩
              intro t ht v hv
              cases List.mem_cons.mp ht with
              | inl he =>
                  rw [he, Trial.score, hu] at hv
                  simp at hv
              | inr he => exact hall t he v hv
      | complete v =>
          have huscore : u.score = some v := by rw [Trial.score, hu]
          have hstep : bestGo none (u :: l) = bestGo (some u) l := by
            simp [bestGo, updateBest, hu]
          obtain ⟨b, w, hb, hmem, hbs, hwle, htie, hall⟩ :=
            bestGo_some_spec l u v huscore (fun t ht => hpw1 t ht) hpw2
          refine Or.inr ⟨b, w, by rw [hstep]; exact hb, ?_, hbs, ?_⟩
          · cases hmem with
            | inl h => exact h ▸ List.mem_cons_self u l
            | inr h => exact List.mem_cons_of_mem u h
          · intro t ht v0 hv0
            cases List.mem_cons.mp ht with
            | inl he =>
                have hv0v : v0 = v := by
                  rw [he, Trial.score, hu] at hv0
                  simpa using hv0.symm
                subst hv0v
                refine ⟨hwle, fun hvw => ?_⟩
                have hbu : b = u := htie hvw
                rw [hbu, he]
            | inr he => exact hall t he v0 hv0

theorem runTrials_cfg (obj : Config → Option Rat) :
    ∀ (n i s : Nat), ∀ t ∈ runTrials obj n i s,
      ∃ k1 k2 : Nat, t.cfg = ⟨gridVal k1, gridVal k2⟩ := by
  intro n
  induction n with
  | zero => intro i s t ht; simp [runTrials] at ht
  | succ m ih =>
      intro i s t ht
      simp only [runTrials, List.mem_cons] at ht
      cases ht with
      | inl h =>
          refine ⟨lcg s, lcg (lcg s), ?_⟩
          rw [h]
          simp [sampleConfig]
      | inr h => exact ih (i + 1) (sampleConfig s).2 t h

/-- C1: in every run of the search loop with direction minimize, the reported
best trial's score is less than or equal to the score of every completed trial
in the run's trial history. -/
theorem best_le_all (obj : Config → Option Rat) (n seed : Nat)
    (b t : Trial) (v : Rat)
    (hb : bestTrial (runStudy obj n seed) = some b)
    (ht : t ∈ runStudy obj n seed) (hv : t.score = some v) :
    ∃ w, b.score = some w ∧ w ≤ v := by
  have hpw : (runStudy obj n seed).Pairwise IdxLt := runTrials_pairwise obj n 0 seed
  cases bestGo_none_spec (runStudy obj n seed) hpw with
  | inl h =>
      rw [bestTrial, h.1] at hb
      exact absurd hb (by simp)
  | inr h =>
      obtain ⟨b0, w, hb0, -, hbs, hall⟩ := h
      rw [bestTrial, hb0] at hb
      have hbb : b0 = b := Option.some.inj hb
      subst hbb
      exact ⟨w, hbs, (hall t ht v hv).1⟩

/-- The objective used by concrete witnesses: every configuration evaluates
to its alpha value. -/
def obj0 : Config → Option Rat := fun c => some c.alpha

/-- The partially failing objective used by concrete witnesses: evaluation
fails whenever alpha is at most one half. -/
def obj1 : Config → Option Rat := fun c => if c.alpha ≤ 1/2 then none else some c.alpha

/-- C1 witness: in the concrete three-trial run from seed 0, the best trial
has score 3/10, which is at most trial 1's score 4/5. -/
theorem best_le_all_witness :
    ∃ w, Trial.score ⟨0, ⟨3/10, 7/20⟩, TrialState.complete (3/10)⟩ = some w ∧
      w ≤ 4/5 :=
  best_le_all obj0 3 0 ⟨0, ⟨3/10, 7/20⟩, TrialState.complete (3/10)⟩
    ⟨1, ⟨4/5, 1/4⟩, TrialState.complete (4/5)⟩ (4/5)
    (by norm_num [bestTrial, bestGo, updateBest, runStudy, runTrials,
      sampleConfig, lcg, gridVal, obj0])
    (by norm_num [runStudy, runTrials, sampleConfig, lcg, gridVal, obj0])
    (by norm_num [Trial.score])

/-- C2: for every target trial count N of at least one, the run records
exactly N trials, and every recorded configuration lies inside the declared
sampling ranges, alpha and l1_ratio both in [0.05, 1.0]. -/
theorem run_length_and_ranges (obj : Config → Option Rat) (n seed : Nat)
    (_hn : 1 ≤ n) :
    (runStudy obj n seed).length = n ∧
    ∀ t ∈ runStudy obj n seed,
      (1 : Rat)/20 ≤ t.cfg.alpha ∧ t.cfg.alpha ≤ 1 ∧
      (1 : Rat)/20 ≤ t.cfg.l1Mix ∧ t.cfg.l1Mix ≤ 1 := by
  refine ⟨runTrials_length obj n 0 seed, ?_⟩
  intro t ht
  obtain ⟨k1, k2, hcfg⟩ := runTrials_cfg obj n 0 seed t ht
  rw [hcfg]
  exact ⟨(gridVal_bounds k1).1, (gridVal_bounds k1).2,
    (gridVal_bounds k2).1, (gridVal_bounds k2).2⟩

/-- C2 witness: the concrete run of one trial from seed 0 has exactly one
record, with its configuration inside the declared ranges. -/
theorem run_length_and_ranges_witness :
    (runStudy obj0 1 0).length = 1 ∧
    ∀ t ∈ runStudy obj0 1 0,
      (1 : Rat)/20 ≤ t.cfg.alpha ∧ t.cfg.alpha ≤ 1 ∧
      (1 : Rat)/20 ≤ t.cfg.l1Mix ∧ t.cfg.l1Mix ≤ 1 :=
  run_length_and_ranges obj0 1 0 (by norm_num)

/-- C3: two runs of the search loop with the same seed, the same evaluation
function (hence the same data split) and the same sampling policy yield the
same sequence of sampled configurations and the same best trial, hence the
same best score. -/
theorem run_deterministic (obj : Config → Option Rat) (n seed : Nat)
    (r1 r2 : List Trial)
    (h1 : r1 = runStudy obj n seed) (h2 : r2 = runStudy obj n seed) :
    r1.map Trial.cfg = r2.map Trial.cfg ∧ bestTrial r1 = bestTrial r2 := by
  subst h1
  subst h2
  exact ⟨rfl, rfl⟩

/-- C3 witness: two copies of the concrete two-trial run from seed 0 agree on
configurations and best trial. -/
theorem run_deterministic_witness :
    (runStudy obj0 2 0).map Trial.cfg = (runStudy obj0 2 0).map Trial.cfg ∧
    bestTrial (runStudy obj0 2 0) = bestTrial (runStudy obj0 2 0) :=
  run_deterministic obj0 2 0 (runStudy obj0 2 0) (runStudy obj0 2 0) rfl rfl

/-- C4: when the evaluation function fails on a sampled configuration, the
trial is recorded as failed, the best-trial tracking never selects it, and
the loop still runs to its full length rather than aborting. -/
theorem failed_trials_skipped (obj : Config → Option Rat) (n seed : Nat) :
    (runStudy obj n seed).length = n ∧
    (∀ t ∈ runStudy obj n seed, obj t.cfg = none → t.state = TrialState.failed) ∧
    (∀ b, bestTrial (runStudy obj n seed) = some b →
      obj b.cfg ≠ none ∧ ∃ w, b.score = some w) := by
  refine ⟨runTrials_length obj n 0 seed, ?_, ?_⟩
  · intro t ht hnone
    have hstate := runTrials_state obj n 0 seed t ht
    rw [hnone] at hstate
    exact hstate
  · intro b hb
    have hpw : (runStudy obj n seed).Pairwise IdxLt := runTrials_pairwise obj n 0 seed
    cases bestGo_none_spec (runStudy obj n seed) hpw with
    | inl h =>
        rw [bestTrial, h.1] at hb
        exact absurd hb (by simp)
    | inr h =>
        obtain ⟨b0, w, hb0, hmem, hbs, -⟩ := h
        rw [bestTrial, hb0] at hb
        have hbb : b0 = b := Option.some.inj hb
        subst hbb
        have hstate := runTrials_state obj n 0 seed b0 hmem
        have hbstate : b0.state = TrialState.complete w := score_eq_some b0 w hbs
        refine ⟨?_, w, hbs⟩
        intro hnone
        rw [hnone] at hstate
        rw [hbstate] at hstate
        exact absurd hstate (by simp)

/-- C4 witness: in the concrete run whose objective fails on trial 0, the run
still has three records, trial 0 is marked failed, and the best trial is a
completed one. -/
theorem failed_trials_skipped_witness :
    (runStudy obj1 3 0).length = 3 ∧
    Trial.state ⟨0, ⟨3/10, 7/20⟩, TrialState.failed⟩ = TrialState.failed ∧
    (obj1 (Trial.cfg ⟨2, ⟨7/10, 19/20⟩, TrialState.complete (7/10)⟩) ≠ none ∧
      ∃ w, Trial.score ⟨2, ⟨7/10, 19/20⟩, TrialState.complete (7/10)⟩ = some w) :=
  ⟨(failed_trials_skipped obj1 3 0).1,
   (failed_trials_skipped obj1 3 0).2.1 ⟨0, ⟨3/10, 7/20⟩, TrialState.failed⟩
     (by norm_num [runStudy, runTrials, sampleConfig, lcg, gridVal, obj1])
     (by norm_num [obj1]),
   (failed_trials_skipped obj1 3 0).2.2 ⟨2, ⟨7/10, 19/20⟩, TrialState.complete (7/10)⟩
     (by norm_num [bestTrial, bestGo, updateBest, runStudy, runTrials,
       sampleConfig, lcg, gridVal, obj1])⟩

/-- C7: the best trial is only displaced by a strictly lower score: every
completed trial recorded earlier than the best has a strictly greater score,
and any completed trial tying the best score does not precede the best, so
ties keep the earliest-encountered best. -/
theorem best_strict_and_ties (obj : Config → Option Rat) (n seed : Nat)
    (b : Trial) (w : Rat)
    (hb : bestTrial (runStudy obj n seed) = some b) (hw : b.score = some w) :
    (∀ t ∈ runStudy obj n seed, t.idx < b.idx →
      ∀ v, t.score = some v → w < v) ∧
    (∀ t ∈ runStudy obj n seed, ∀ v, t.score = some v → v = w →
      b.idx ≤ t.idx) := by
  have hpw : (runStudy obj n seed).Pairwise IdxLt := runTrials_pairwise obj n 0 seed
  cases bestGo_none_spec (runStudy obj n seed) hpw with
  | inl h =>
      rw [bestTrial, h.1] at hb
      exact absurd hb (by simp)
  | inr h =>
      obtain ⟨b0, w0, hb0, -, hbs, hall⟩ := h
      rw [bestTrial, hb0] at hb
      have hbb : b0 = b := Option.some.inj hb
      subst hbb
      have hww : w0 = w := by
        rw [hbs] at hw
        exact Option.some.inj hw
      subst hww
      constructor
      · intro t ht hidx v hv
        rcases hall t ht v hv with ⟨hle, htie⟩
        by_contra hnot
        exact absurd (htie (le_of_not_lt hnot)) (Nat.not_le_of_lt hidx)
      · intro t ht v hv hvw
        exact (hall t ht v hv).2 (le_of_eq hvw)

/-- C7 witness: in the concrete run with a failing trial 0, the best trial is
trial 2 with score 7/10; every earlier completed trial scores strictly more,
and any tying trial does not precede it. -/
theorem best_strict_and_ties_witness :
    (∀ t ∈ runStudy obj1 3 0, t.idx < 2 →
      ∀ v, t.score = some v → (7 : Rat)/10 < v) ∧
    (∀ t ∈ runStudy obj1 3 0, ∀ v, t.score = some v → v = (7 : Rat)/10 →
      2 ≤ t.idx) :=
  best_strict_and_ties obj1 3 0 ⟨2, ⟨7/10, 19/20⟩, TrialState.complete (7/10)⟩
    (7/10)
    (by norm_num [bestTrial, bestGo, updateBest, runStudy, runTrials,
      sampleConfig, lcg, gridVal, obj1])
    (by norm_num [Trial.score])

/-- C8: a run with a target of zero trials has an empty history, and the best
trial is the empty option: absence is signalled, not encoded as a sentinel
score. -/
theorem zero_trials (obj : Config → Option Rat) (seed : Nat) :
    runStudy obj 0 seed = [] ∧ bestTrial (runStudy obj 0 seed) = none :=
  ⟨rfl, rfl⟩

/-- The mean-squared-error collaborator sklearn.metrics.mean_squared_error:
the mean of the squared differences between true and predicted targets. -/
def mean_squared_error (yTrue yPred : List Rat) : Rat :=
  (((yTrue.zip yPred).map (fun p => (p.1 - p.2) ^ 2)).sum) / (yTrue.length : Rat)

/-- The MLflow tracking state visible to the objective: the sequence of model
artifacts logged so far by mlflow.sklearn.log_model. -/
structure TrackerState (M : Type) where
  models : List (M × String)

/-- Embeds mlflow.sklearn.log_model(model, "model"): appends the artifact to
the tracker state. -/
def logModel (M : Type) (s : TrackerState M) (m : M) (artifact : String) :
    TrackerState M :=
  ⟨s.models ++ [(m, artifact)]⟩

/-- Embeds objective(trial) from the notebook over abstract collaborators:
fit models ElasticNet(**params).fit(x_train, y_train), predict models
model.predict, sqrtFn models np.sqrt, and the input configuration holds the
two sampled params. The tracker state is threaded explicitly to capture the
log_model side effect; the returned pair is the rmse and the updated state. -/
def objective (M : Type) (fit : Config → List (List Rat) → List Rat → M)
    (predict : M → List (List Rat) → List Rat) (sqrtFn : Rat → Rat)
    (xTrain : List (List Rat)) (yTrain : List Rat)
    (xTest : List (List Rat)) (yTest : List Rat)
    (cfg : Config) (s : TrackerState M) : Rat × TrackerState M :=
  let model := fit cfg xTrain yTrain
  let s2 := logModel M s model "model"
  let yPred := predict model xTest
  let rmse := sqrtFn (mean_squared_error yTest yPred)
  (rmse, s2)

/-- Follows the specification's words: the root-mean-squared error of the
fitted model's predictions against the held-out evaluation subset's true
targets. -/
def specRmse (M : Type) (fit : Config → List (List Rat) → List Rat → M)
    (predict : M → List (List Rat) → List Rat) (sqrtFn : Rat → Rat)
    (xTrain : List (List Rat)) (yTrain : List Rat)
    (xTest : List (List Rat)) (yTest : List Rat) (cfg : Config) : Rat :=
  sqrtFn (mean_squared_error yTest (predict (fit cfg xTrain yTrain) xTest))

/-- C6: for every configuration, the objective's returned score is exactly the
RMSE of the elastic-net model fitted on the training subset evaluated against
the held-out test targets, and the objective carries no internal state between
invocations: the score does not depend on the incoming tracker state, and
invoking the objective again on its own output state returns the same score. -/
theorem objective_rmse_pure (M : Type)
    (fit : Config → List (List Rat) → List Rat → M)
    (predict : M → List (List Rat) → List Rat) (sqrtFn : Rat → Rat)
    (xTrain : List (List Rat)) (yTrain : List Rat)
    (xTest : List (List Rat)) (yTest : List Rat) (cfg : Config) :
    (∀ s, (objective M fit predict sqrtFn xTrain yTrain xTest yTest cfg s).1 =
      specRmse M fit predict sqrtFn xTrain yTrain xTest yTest cfg) ∧
    (∀ s1 s2,
      (objective M fit predict sqrtFn xTrain yTrain xTest yTest cfg s1).1 =
      (objective M fit predict sqrtFn xTrain yTrain xTest yTest cfg s2).1) ∧
    (∀ s,
      (objective M fit predict sqrtFn xTrain yTrain xTest yTest cfg
        ((objective M fit predict sqrtFn xTrain yTrain xTest yTest cfg s).2)).1 =
      (objective M fit predict sqrtFn xTrain yTrain xTest yTest cfg s).1) :=
  ⟨fun _ => rfl, fun _ _ => rfl, fun _ => rfl⟩

/-- One recorded trial of the notebook's reference run: its index, sampled
alpha, sampled l1_ratio (field l1Mix) and recorded RMSE value. -/
structure RefTrial where
  idx : Nat
  alpha : Rat
  l1Mix : Rat
  value : Rat
deriving DecidableEq

/-- Builds one recorded reference trial. -/
def mkRef (i : Nat) (a l v : Rat) : RefTrial := ⟨i, a, l, v⟩

/-- The 100 trials of the reference run recorded in the notebook's output
cell, in order: index, alpha, l1_ratio, RMSE value. -/
def referenceTrials : List RefTrial := [
  mkRef 0 ((11 : Rat)/20) ((2 : Rat)/5) ((7383336363712971 : Rat)/10000000000000000),
  mkRef 1 ((8500000000000001 : Rat)/10000000000000000) ((7500000000000001 : Rat)/10000000000000000) ((3925013212570879 : Rat)/5000000000000000),
  mkRef 2 ((11 : Rat)/20) ((35000000000000003 : Rat)/100000000000000000) ((1832580326403657 : Rat)/2500000000000000),
  mkRef 3 ((7500000000000001 : Rat)/10000000000000000) ((6500000000000001 : Rat)/10000000000000000) ((7849385305823857 : Rat)/10000000000000000),
  mkRef 4 ((11 : Rat)/20) ((8500000000000001 : Rat)/10000000000000000) ((1961749751600863 : Rat)/2500000000000000),
  mkRef 5 ((7000000000000001 : Rat)/10000000000000000) ((35000000000000003 : Rat)/100000000000000000) ((7470961306776773 : Rat)/10000000000000000),
  mkRef 6 ((9000000000000001 : Rat)/10000000000000000) ((1 : Rat)/5) ((923864680716491 : Rat)/1250000000000000),
  mkRef 7 ((1 : Rat)/20) ((1 : Rat)/10) ((6595536300473237 : Rat)/10000000000000000),
  mkRef 8 ((1 : Rat)/5) ((7500000000000001 : Rat)/10000000000000000) ((3571522998094903 : Rat)/5000000000000000),
  mkRef 9 ((11 : Rat)/20) ((4 : Rat)/5) ((1960994527915319 : Rat)/2500000000000000),
  mkRef 10 ((1 : Rat)/20) ((1 : Rat)/20) ((131536002995721 : Rat)/200000000000000),
  mkRef 11 ((1 : Rat)/20) ((1 : Rat)/20) ((131536002995721 : Rat)/200000000000000),
  mkRef 12 ((1 : Rat)/4) ((1 : Rat)/20) ((6832836448260411 : Rat)/10000000000000000),
  mkRef 13 ((1 : Rat)/20) ((1 : Rat)) ((6907593634468839 : Rat)/10000000000000000),
  mkRef 14 ((3 : Rat)/10) ((1 : Rat)/5) ((6982140773499571 : Rat)/10000000000000000),
  mkRef 15 ((35000000000000003 : Rat)/100000000000000000) ((1 : Rat)/2) ((1809866412533577 : Rat)/2500000000000000),
  mkRef 16 ((7500000000000001 : Rat)/50000000000000000) ((7500000000000001 : Rat)/50000000000000000) ((6837173832563269 : Rat)/10000000000000000),
  mkRef 17 ((2 : Rat)/5) ((1 : Rat)/4) ((2835808710677 : Rat)/4000000000000),
  mkRef 18 ((7500000000000001 : Rat)/50000000000000000) ((1 : Rat)/20) ((1688142239073839 : Rat)/2500000000000000),
  mkRef 19 ((2 : Rat)/5) ((11 : Rat)/20) ((7340699172154007 : Rat)/10000000000000000),
  mkRef 20 ((1 : Rat)/20) ((3 : Rat)/10) ((6670977820374063 : Rat)/10000000000000000),
  mkRef 21 ((1 : Rat)/20) ((1 : Rat)/10) ((6595536300473237 : Rat)/10000000000000000),
  mkRef 22 ((1 : Rat)/10) ((1 : Rat)/20) ((1337800295656867 : Rat)/2000000000000000),
  mkRef 23 ((1 : Rat)/4) ((7500000000000001 : Rat)/50000000000000000) ((3465925785744929 : Rat)/5000000000000000),
  mkRef 24 ((1 : Rat)) ((7500000000000001 : Rat)/50000000000000000) ((7365232649033919 : Rat)/10000000000000000),
  mkRef 25 ((7500000000000001 : Rat)/50000000000000000) ((9 : Rat)/20) ((1737728046234093 : Rat)/2500000000000000),
  mkRef 26 ((1 : Rat)/5) ((1 : Rat)/4) ((3469598510675139 : Rat)/5000000000000000),
  mkRef 27 ((9 : Rat)/20) ((1 : Rat)/20) ((6943273686749557 : Rat)/10000000000000000),
  mkRef 28 ((1 : Rat)/10) ((1 : Rat)/4) ((853445355757281 : Rat)/1250000000000000),
  mkRef 29 ((6500000000000001 : Rat)/10000000000000000) ((2 : Rat)/5) ((149885094320559 : Rat)/200000000000000),
  mkRef 30 ((3 : Rat)/10) ((1 : Rat)/10) ((6921230383176631 : Rat)/10000000000000000),
  mkRef 31 ((1 : Rat)/20) ((1 : Rat)/10) ((6595536300473237 : Rat)/10000000000000000),
  mkRef 32 ((1 : Rat)/20) ((7500000000000001 : Rat)/50000000000000000) ((6613305597955911 : Rat)/10000000000000000),
  mkRef 33 ((1 : Rat)/10) ((1 : Rat)/10) ((6720681915647143 : Rat)/10000000000000000),
  mkRef 34 ((1 : Rat)/5) ((1 : Rat)/5) ((3463151498242667 : Rat)/5000000000000000),
  mkRef 35 ((1 : Rat)/10) ((3 : Rat)/10) ((214216583153557 : Rat)/312500000000000),
  mkRef 36 ((7500000000000001 : Rat)/50000000000000000) ((1 : Rat)/10) ((6794528676261647 : Rat)/10000000000000000),
  mkRef 37 ((1 : Rat)/4) ((6000000000000001 : Rat)/10000000000000000) ((143229409870407 : Rat)/200000000000000),
  mkRef 38 ((1 : Rat)/20) ((35000000000000003 : Rat)/100000000000000000) ((669418493888747 : Rat)/1000000000000000),
  mkRef 39 ((4 : Rat)/5) ((1 : Rat)/5) ((3669085745072697 : Rat)/5000000000000000),
  mkRef 40 ((6500000000000001 : Rat)/10000000000000000) ((1 : Rat)/20) ((7031439259234781 : Rat)/10000000000000000),
  mkRef 41 ((1 : Rat)/20) ((1 : Rat)/10) ((6595536300473237 : Rat)/10000000000000000),
  mkRef 42 ((1 : Rat)/10) ((1 : Rat)/10) ((6720681915647143 : Rat)/10000000000000000),
  mkRef 43 ((1 : Rat)/5) ((7500000000000001 : Rat)/50000000000000000) ((6890870189328233 : Rat)/10000000000000000),
  mkRef 44 ((1 : Rat)/20) ((1 : Rat)/20) ((131536002995721 : Rat)/200000000000000),
  mkRef 45 ((7500000000000001 : Rat)/50000000000000000) ((1 : Rat)) ((890525392202851 : Rat)/1250000000000000),
  mkRef 46 ((1 : Rat)/10) ((1 : Rat)/20) ((1337800295656867 : Rat)/2000000000000000),
  mkRef 47 ((3 : Rat)/10) ((9000000000000001 : Rat)/10000000000000000) ((46450273953711 : Rat)/62500000000000),
  mkRef 48 ((1 : Rat)/5) ((1 : Rat)/5) ((3463151498242667 : Rat)/5000000000000000),
  mkRef 49 ((1 : Rat)/2) ((7000000000000001 : Rat)/10000000000000000) ((3865266202865581 : Rat)/5000000000000000),
  mkRef 50 ((1 : Rat)/20) ((3 : Rat)/10) ((6670977820374063 : Rat)/10000000000000000),
  mkRef 51 ((1 : Rat)/20) ((1 : Rat)/10) ((6595536300473237 : Rat)/10000000000000000),
  mkRef 52 ((7500000000000001 : Rat)/50000000000000000) ((1 : Rat)/20) ((1688142239073839 : Rat)/2500000000000000),
  mkRef 53 ((1 : Rat)/10) ((7500000000000001 : Rat)/50000000000000000) ((270144586119363 : Rat)/400000000000000),
  mkRef 54 ((1 : Rat)/20) ((1 : Rat)/10) ((6595536300473237 : Rat)/10000000000000000),
  mkRef 55 ((7500000000000001 : Rat)/50000000000000000) ((1 : Rat)/4) ((6909815615413109 : Rat)/10000000000000000),
  mkRef 56 ((1 : Rat)/20) ((1 : Rat)/20) ((131536002995721 : Rat)/200000000000000),
  mkRef 57 ((1 : Rat)/10) ((1 : Rat)/20) ((1337800295656867 : Rat)/2000000000000000),
  mkRef 58 ((1 : Rat)/4) ((1 : Rat)/5) ((6952544923688759 : Rat)/10000000000000000),
  mkRef 59 ((1 : Rat)/10) ((7500000000000001 : Rat)/50000000000000000) ((270144586119363 : Rat)/400000000000000),
  mkRef 60 ((9000000000000001 : Rat)/10000000000000000) ((1 : Rat)/20) ((7126219950882801 : Rat)/10000000000000000),
  mkRef 61 ((1 : Rat)/20) ((1 : Rat)/10) ((6595536300473237 : Rat)/10000000000000000),
  mkRef 62 ((1 : Rat)/20) ((7500000000000001 : Rat)/50000000000000000) ((6613305597955911 : Rat)/10000000000000000),
  mkRef 63 ((1 : Rat)/20) ((1 : Rat)/20) ((131536002995721 : Rat)/200000000000000),
  mkRef 64 ((7500000000000001 : Rat)/50000000000000000) ((1 : Rat)/20) ((1688142239073839 : Rat)/2500000000000000),
  mkRef 65 ((1 : Rat)/10) ((1 : Rat)/20) ((1337800295656867 : Rat)/2000000000000000),
  mkRef 66 ((1 : Rat)/5) ((1 : Rat)/10) ((6846172586851059 : Rat)/10000000000000000),
  mkRef 67 ((1 : Rat)/20) ((7500000000000001 : Rat)/50000000000000000) ((6613305597955911 : Rat)/10000000000000000),
  mkRef 68 ((7500000000000001 : Rat)/50000000000000000) ((1 : Rat)/5) ((1718685048184179 : Rat)/2500000000000000),
  mkRef 69 ((1 : Rat)/10) ((1 : Rat)/20) ((1337800295656867 : Rat)/2000000000000000),
  mkRef 70 ((1 : Rat)/5) ((1 : Rat)/2) ((1404619277337251 : Rat)/2000000000000000),
  mkRef 71 ((1 : Rat)/20) ((1 : Rat)/10) ((6595536300473237 : Rat)/10000000000000000),
  mkRef 72 ((1 : Rat)/20) ((1 : Rat)/10) ((6595536300473237 : Rat)/10000000000000000),
  mkRef 73 ((1 : Rat)/10) ((1 : Rat)/20) ((1337800295656867 : Rat)/2000000000000000),
  mkRef 74 ((1 : Rat)/20) ((7500000000000001 : Rat)/50000000000000000) ((6613305597955911 : Rat)/10000000000000000),
  mkRef 75 ((1 : Rat)/10) ((1 : Rat)/10) ((6720681915647143 : Rat)/10000000000000000),
  mkRef 76 ((7500000000000001 : Rat)/50000000000000000) ((1 : Rat)/5) ((1718685048184179 : Rat)/2500000000000000),
  mkRef 77 ((35000000000000003 : Rat)/100000000000000000) ((1 : Rat)/20) ((27570403489127 : Rat)/40000000000000),
  mkRef 78 ((7500000000000001 : Rat)/50000000000000000) ((7500000000000001 : Rat)/50000000000000000) ((6837173832563269 : Rat)/10000000000000000),
  mkRef 79 ((6000000000000001 : Rat)/10000000000000000) ((1 : Rat)/10) ((441991362816969 : Rat)/625000000000000),
  mkRef 80 ((1 : Rat)/20) ((1 : Rat)/20) ((131536002995721 : Rat)/200000000000000),
  mkRef 81 ((1 : Rat)/20) ((1 : Rat)/20) ((131536002995721 : Rat)/200000000000000),
  mkRef 82 ((1 : Rat)/10) ((1 : Rat)/20) ((1337800295656867 : Rat)/2000000000000000),
  mkRef 83 ((1 : Rat)/20) ((1 : Rat)/20) ((131536002995721 : Rat)/200000000000000),
  mkRef 84 ((1 : Rat)/20) ((1 : Rat)/20) ((131536002995721 : Rat)/200000000000000),
  mkRef 85 ((1 : Rat)/20) ((1 : Rat)/20) ((131536002995721 : Rat)/200000000000000),
  mkRef 86 ((1 : Rat)/20) ((1 : Rat)/20) ((131536002995721 : Rat)/200000000000000),
  mkRef 87 ((1 : Rat)/10) ((7500000000000001 : Rat)/50000000000000000) ((270144586119363 : Rat)/400000000000000),
  mkRef 88 ((1 : Rat)/10) ((1 : Rat)/20) ((1337800295656867 : Rat)/2000000000000000),
  mkRef 89 ((1 : Rat)/20) ((1 : Rat)/10) ((6595536300473237 : Rat)/10000000000000000),
  mkRef 90 ((7500000000000001 : Rat)/50000000000000000) ((1 : Rat)/20) ((1688142239073839 : Rat)/2500000000000000),
  mkRef 91 ((1 : Rat)/20) ((1 : Rat)/20) ((131536002995721 : Rat)/200000000000000),
  mkRef 92 ((1 : Rat)/20) ((1 : Rat)/10) ((6595536300473237 : Rat)/10000000000000000),
  mkRef 93 ((1 : Rat)/10) ((1 : Rat)/20) ((1337800295656867 : Rat)/2000000000000000),
  mkRef 94 ((1 : Rat)/20) ((9500000000000001 : Rat)/10000000000000000) ((690511223468549 : Rat)/1000000000000000),
  mkRef 95 ((1 : Rat)/10) ((1 : Rat)/10) ((6720681915647143 : Rat)/10000000000000000),
  mkRef 96 ((1 : Rat)/20) ((7500000000000001 : Rat)/10000000000000000) ((431001698657501 : Rat)/625000000000000),
  mkRef 97 ((7500000000000001 : Rat)/50000000000000000) ((1 : Rat)/20) ((1688142239073839 : Rat)/2500000000000000),
  mkRef 98 ((1 : Rat)/10) ((1 : Rat)/10) ((6720681915647143 : Rat)/10000000000000000),
  mkRef 99 ((1 : Rat)/20) ((6000000000000001 : Rat)/10000000000000000) ((1363124989112721 : Rat)/2000000000000000)]

/-- C9: in the recorded reference run, trial index 10 has the configuration
alpha = 0.05 and l1_ratio = 0.05, its RMSE is within 0.0001 of 0.6577, and
that score is the minimum over the whole run. -/
theorem reference_optimum :
    ∃ t ∈ referenceTrials,
      t.idx = 10 ∧ t.alpha = 1/20 ∧ t.l1Mix = 1/20 ∧
      t.value - 6577/10000 < 1/10000 ∧ 6577/10000 - t.value < 1/10000 ∧
      ∀ u ∈ referenceTrials, t.value ≤ u.value := by
  refine ⟨mkRef 10 ((1 : Rat)/20) ((1 : Rat)/20)
    ((131536002995721 : Rat)/200000000000000), ?_, rfl, rfl, rfl,
    by norm_num [mkRef], by norm_num [mkRef], ?_⟩
  · norm_num [referenceTrials, mkRef]
  · intro u hu
    simp only [referenceTrials, List.mem_cons, List.not_mem_nil, or_false] at hu
    rcases hu with rfl|rfl|rfl|rfl|rfl|rfl|rfl|rfl|rfl|rfl|rfl|rfl|rfl|rfl|rfl|rfl|rfl|rfl|rfl|rfl|rfl|rfl|rfl|rfl|rfl|rfl|rfl|rfl|rfl|rfl|rfl|rfl|rfl|rfl|rfl|rfl|rfl|rfl|rfl|rfl|rfl|rfl|rfl|rfl|rfl|rfl|rfl|rfl|rfl|rfl|rfl|rfl|rfl|rfl|rfl|rfl|rfl|rfl|rfl|rfl|rfl|rfl|rfl|rfl|rfl|rfl|rfl|rfl|rfl|rfl|rfl|rfl|rfl|rfl|rfl|rfl|rfl|rfl|rfl|rfl|rfl|rfl|rfl|rfl|rfl|rfl|rfl|rfl|rfl|rfl|rfl|rfl|rfl|rfl|rfl|rfl|rfl|rfl|rfl|rfl
    all_goals norm_num [mkRef]

/-- C5 amended witness: at a concrete failing fetch, load prints the message
and raises UnboundLocalError. -/
theorem load_error_amended_witness :
    (load (Except.error "boom")).1 =
      ["Unable to download training & test CSV, check your internet connection. Error: %s boom"] ∧
    (load (Except.error "boom")).2 = PyResult.exn "UnboundLocalError" :=
  load_error_amended "boom"
